import Mathlib

/-!
Verification of the streaming sample-generation and consumption protocol of
the `streamlitsearch` repository (backend `src/api.py`, consumer `src/app.py`).

The backend fabricates a random `SearchSample` (product codes, clusters,
cluster-to-product associations), serves it through streamed line endpoints
and fully-materialized endpoints, and the Streamlit client consumes the three
streams incrementally, parsing and deduplicating each line.

Python's library primitives are shallow-embedded:
  * `random.randint(a, b)` / `random.sample(pop, k)` are modelled through an
    oracle of natural numbers (`Rand`): `randint` maps the oracle value into
    `[a, b]`, and `random.sample` repeatedly picks an oracle-chosen index of
    the remaining population, erasing it — it fails (Python `ValueError`)
    exactly when `k` exceeds the population size.
  * `str.strip()` is `pythonStrip` (drops Python whitespace on both ends),
    `str.split(sep)` for a one-character separator is `splitCh`, and
    `str.split(': ')` is `splitColonSpace`.
  * `dict` values built by `dict(zip(keys, parts))` are association lists
    (`List (String × String)`); dict assignment is `dictInsert`
    (replace-in-place or append, preserving insertion order).
  * exceptions are `Option`/explicit error fields; the Python error message
    strings are reproduced where the consumer surfaces `str(e)`.
  * JSON attribute values are modelled by their rendered string form.
-/

namespace StreamlitSearch

/-! ### Python string primitives -/

/-- Code points of the characters Python `str.strip()` removes (CPython's
`Py_UNICODE_ISSPACE` set): U+0009..U+000D, U+001C..U+001F, the space,
U+0085, U+00A0, U+1680, U+2000..U+200A, U+2028, U+2029, U+202F, U+205F and
U+3000. -/
def pySpaceCodes : List Nat :=
  [0x09, 0x0A, 0x0B, 0x0C, 0x0D, 0x1C, 0x1D, 0x1E, 0x1F, 0x20, 0x85, 0xA0,
   0x1680, 0x2000, 0x2001, 0x2002, 0x2003, 0x2004, 0x2005, 0x2006, 0x2007,
   0x2008, 0x2009, 0x200A, 0x2028, 0x2029, 0x202F, 0x205F, 0x3000]

/-- Python whitespace test backing `str.strip()`: true exactly on the
Unicode whitespace characters `str.strip()` removes. -/
def isPySpace (c : Char) : Bool := pySpaceCodes.contains c.toNat

/-- Character-list core of Python `str.strip()`. -/
def stripChars (l : List Char) : List Char :=
  ((l.dropWhile isPySpace).reverse.dropWhile isPySpace).reverse

/-- Python `str.strip()`. -/
def pythonStrip (s : String) : String := ⟨stripChars s.data⟩

/-- Python `str.split(sep)` for a one-character separator `sep`. -/
def splitCh (sep : Char) : List Char → List (List Char)
  | [] => [[]]
  | c :: cs =>
    if c = sep then [] :: splitCh sep cs
    else
      match splitCh sep cs with
      | r :: rs => (c :: r) :: rs
      | [] => [[c]]

/-- Python `str.split(': ')`: split on the two-character separator `": "`,
scanning left to right. -/
def splitColonSpace : List Char → List (List Char)
  | [] => [[]]
  | ':' :: ' ' :: cs => [] :: splitColonSpace cs
  | c :: cs =>
    match splitColonSpace cs with
    | r :: rs => (c :: r) :: rs
    | [] => [[c]]

/-- Python `','.join(items)`. -/
def commaJoin : List String → String
  | [] => ""
  | [x] => x
  | x :: xs => x ++ "," ++ commaJoin xs

/-! ### Catalog loading (src/api.py, module top level)

The CSV / JSON reads themselves are I/O; their outcome is modelled as an
`Except` value.  The `try/except` wrapper degrades any failure to the empty
catalog. -/

/-- Loader wrapper `try: PRODUCT_CODES = [...] except: PRODUCT_CODES = []`
from src/api.py. -/
def load_product_codes (result : Except String (List String)) : List String :=
  match result with
  | .ok codes => codes
  | .error _ => []

/-- The 20 built-in cluster labels `GENERIC_CLUSTERS` from src/api.py. -/
def GENERIC_CLUSTERS : List String :=
  ["Outdoor Adventure", "Water Sports", "Team Sports", "Fitness Equipment",
   "Winter Sports", "Cycling", "Running", "Camping", "Hiking", "Yoga",
   "Martial Arts", "Racquet Sports", "Golf", "Climbing", "Fishing",
   "Skateboarding", "Surfing", "Swimming", "Athletics", "Gym Workout"]

/-! ### Sample generation (src/api.py, generate_sample) -/

/-- The `SearchSample` pydantic model from src/api.py.  The Python `Dict` for
`associations` preserves insertion order; it is modelled as an association
list in insertion order. -/
structure SearchSample where
  product_codes : List String
  clusters : List String
  associations : List (String × List String)
deriving Repr, DecidableEq

/-- Randomness oracle consumed by `generate_sample`: one draw for
`random.randint(20, 50)`, index streams for the three uses of
`random.sample`, and one `randint(3, 10)` draw per cluster. -/
structure Rand where
  nProducts : Nat
  prodOracle : Nat → Nat
  clusterOracle : Nat → Nat
  assocCount : Nat → Nat
  assocOracle : Nat → Nat → Nat

/-- Python `random.randint(a, b)`: a uniform draw in `[a, b]`, modelled by
mapping the oracle value `r` into the interval. -/
def randint (a b r : Nat) : Nat := a + r % (b - a + 1)

/-- Selection core of Python `random.sample`: pick an oracle-chosen index of
the remaining population, remove it, repeat `k` times. -/
def sampleGo (oracle : Nat → Nat) : Nat → Nat → List String → List String
  | 0, _, _ => []
  | k + 1, step, pop =>
    let i := oracle step % pop.length
    pop.getD i "" :: sampleGo oracle k (step + 1) (pop.eraseIdx i)

/-- Python `random.sample(pop, k)`: `k` distinct positions drawn without
replacement; raises `ValueError` (here `none`) when `k` exceeds the
population size. -/
def random_sample (pop : List String) (k : Nat) (oracle : Nat → Nat) :
    Option (List String) :=
  if k ≤ pop.length then some (sampleGo oracle k 0 pop) else none

/-- The association-building loop of `generate_sample`:
`for cluster in sampled_clusters: associations[cluster] =
random.sample(sampled_product_codes, min(random.randint(3, 10), len(...)))`.
The clusters are pairwise distinct, so dict insertion is a plain append. -/
def build_associations (codes : List String) (r : Rand) :
    Nat → List String → Option (List (String × List String))
  | _, [] => some []
  | j, cluster :: rest => do
    let num_associated := min (randint 3 10 (r.assocCount j)) codes.length
    let assoc ← random_sample codes num_associated (r.assocOracle j)
    let tail ← build_associations codes r (j + 1) rest
    return (cluster, assoc) :: tail

/-- Function `generate_sample` from src/api.py.  `none` models the propagated
`ValueError` of `random.sample` when the population is too small. -/
def generate_sample (product_codes : List String) (r : Rand) :
    Option SearchSample := do
  let num_products := randint 20 50 r.nProducts
  let sampled_product_codes ← random_sample product_codes num_products r.prodOracle
  let sampled_clusters ← random_sample GENERIC_CLUSTERS 5 r.clusterOracle
  let associations ← build_associations sampled_product_codes r 0 sampled_clusters
  return { product_codes := sampled_product_codes
           clusters := sampled_clusters
           associations := associations }

/-! ### Product attributes and stream producers (src/api.py) -/

/-- One `PRODUCT_GRAPH` entry: a JSON object whose keys may be absent.
Values are modelled by their rendered string form (the producer interpolates
them into an f-string). -/
structure ProductInfo where
  product_name : Option String
  price : Option String
  review_score : Option String
  image_sign_kit : Option String
  sport : Option String
  brand : Option String

/-- Value of `PRODUCT_GRAPH.get(code, {})` for a code absent from the map: the empty
dict, every field lookup falling through to its default. -/
def emptyInfo : ProductInfo := ⟨none, none, none, none, none, none⟩

/-- One fully-defaulted product record, as assembled by both
`stream_products` and `get_products_non_streaming` in src/api.py. -/
structure ProductRecord where
  name : String
  id : String
  price : String
  review_score : String
  image_sign_kit : String
  sport : String
  brand : String
deriving Repr, DecidableEq

/-- The line built for one product code by `stream_products` in src/api.py:
per-field `.get` defaults, then
`f"{name}|{code}|{price}|{review}|{image}|{sport}|{brand}\n"`. -/
def streamProductLine (graph : String → Option ProductInfo) (code : String) :
    String :=
  let info := (graph code).getD emptyInfo
  let product_name := info.product_name.getD ("Product " ++ code)
  let price := info.price.getD "N/A"
  let review_score := info.review_score.getD "None"
  let image_sign_kit := info.image_sign_kit.getD ""
  let sport := info.sport.getD "N/A"
  let brand := info.brand.getD "N/A"
  product_name ++ "|" ++ code ++ "|" ++ price ++ "|" ++ review_score ++ "|" ++
    image_sign_kit ++ "|" ++ sport ++ "|" ++ brand ++ "\n"

/-- Producer `stream_products` from src/api.py: one line per product code, in sample
order. -/
def stream_products (graph : String → Option ProductInfo)
    (product_codes : List String) : List String :=
  product_codes.map (streamProductLine graph)

/-- Producer `stream_cluster_names` from src/api.py: one line per cluster,
the label followed by a newline. -/
def stream_cluster_names (clusters : List String) : List String :=
  clusters.map (fun cluster => cluster ++ "\n")

/-- Producer `stream_associations` from src/api.py:
`f"{cluster}: {','.join(products)}\n"` per association entry. -/
def stream_associations (associations : List (String × List String)) :
    List String :=
  associations.map (fun a => a.1 ++ ": " ++ commaJoin a.2 ++ "\n")

/-- Endpoint `get_clusters_non_streaming` from src/api.py: the cluster list
itself. -/
def get_clusters_non_streaming (sample : SearchSample) : List String :=
  sample.clusters

/-- Endpoint `get_products_non_streaming` from src/api.py: the fully-materialized
product records, built with the same per-field `.get` defaults as the
streaming producer. -/
def get_products_non_streaming (graph : String → Option ProductInfo)
    (product_codes : List String) : List ProductRecord :=
  product_codes.map fun code =>
    let info := (graph code).getD emptyInfo
    { name := info.product_name.getD ("Product " ++ code)
      id := code
      price := info.price.getD "N/A"
      review_score := info.review_score.getD "None"
      image_sign_kit := info.image_sign_kit.getD ""
      sport := info.sport.getD "N/A"
      brand := info.brand.getD "N/A" }

/-- Endpoint `get_associations_non_streaming` from src/api.py: the association mapping
itself. -/
def get_associations_non_streaming (sample : SearchSample) :
    List (String × List String) :=
  sample.associations

/-- The line format of the product stream, as a function of the record it
carries: 7 fields joined by `"|"`, then a newline. -/
def encodeProductRecord (r : ProductRecord) : String :=
  r.name ++ "|" ++ r.id ++ "|" ++ r.price ++ "|" ++ r.review_score ++ "|" ++
    r.image_sign_kit ++ "|" ++ r.sport ++ "|" ++ r.brand ++ "\n"

/-! ### Stream consumer (src/app.py) -/

/-- The key list of `dict(zip([...], product.split('|')))` in fetch_data. -/
def productKeys : List String :=
  ["name", "id", "price", "review_score", "image_sign_kit", "sport", "brand"]

/-- Parse step `dict(zip(productKeys, product.split('|')))` from fetch_data in
src/app.py.  `zip` truncates to the shorter list, so a malformed line yields
a dict with missing keys. -/
def parse_product_line (line : String) : List (String × String) :=
  List.zip productKeys ((splitCh '|' line.data).map (fun l => (⟨l⟩ : String)))

/-- Python dict key lookup on an association list (keys are distinct, first
match). -/
def lookupKey (d : List (String × String)) (k : String) : Option String :=
  match d with
  | [] => none
  | (k', v) :: rest => if k' = k then some v else lookupKey rest k

/-- Python dict assignment `d[k] = v`: replace in place if the key exists,
else append (insertion order preserved). -/
def dictInsert (d : List (String × List String)) (k : String)
    (v : List String) : List (String × List String) :=
  match d with
  | [] => [(k, v)]
  | (k', v') :: rest =>
    if k' = k then (k, v) :: rest else (k', v') :: dictInsert rest k v

/-- The events yielded by `fetch_data` in src/app.py. -/
inductive Event where
  | cluster (data : String)
  | product (data : List (String × String))
  | association (cluster : String) (ids : List String)
  | complete (clusters : List String) (products : List (List (String × String)))
      (associations : List (String × List String))
  | error (msg : String)
deriving Repr, DecidableEq

/-- Result of one `fetch_stream` generator run: the lines it yielded (already
`.strip()`-ed), the exception it ended with (if any), the number of attempts
made, and the number of `asyncio.sleep(1)` backoff calls (each of one time
unit). -/
structure FetchResult where
  lines : List String
  err : Option String
  attempts : Nat
  sleeps : Nat
deriving Repr, DecidableEq

/-- Retry loop of `fetch_stream` from src/app.py, iterating
`for attempt in range(max_retries)`, with `remaining = max_retries - attempt`
iterations left.  The transport gives, per attempt, the raw lines received
before the attempt either completes (`none`) or fails with a transport error
(`some msg`).  On failure at the last attempt the exception is raised
(recorded in `err`); on earlier failures the consumer sleeps 1 time unit and
retries.  Note the loop body has no `break` after a successful attempt, so a
fully successful run re-fetches the stream `max_retries` times. -/
def fetch_stream_go (transport : Nat → List String × Option String)
    (max_retries : Nat) : Nat → FetchResult
  | 0 => ⟨[], none, 0, 0⟩
  | remaining + 1 =>
    let attempt := max_retries - (remaining + 1)
    let (ls, e) := transport attempt
    match e with
    | none =>
      let rest := fetch_stream_go transport max_retries remaining
      ⟨ls.map pythonStrip ++ rest.lines, rest.err, rest.attempts + 1, rest.sleeps⟩
    | some msg =>
      if attempt = max_retries - 1 then
        ⟨ls.map pythonStrip, some msg, 1, 0⟩
      else
        let rest := fetch_stream_go transport max_retries remaining
        ⟨ls.map pythonStrip ++ rest.lines, rest.err, rest.attempts + 1,
          rest.sleeps + 1⟩

/-- Call `fetch_stream(session, url)` with the default `max_retries = 3`. -/
def fetch_stream (transport : Nat → List String × Option String) : FetchResult :=
  fetch_stream_go transport 3 3

/-- The cluster loop of `fetch_data`: dedup by membership of the full label,
appending and yielding an event for each new label. -/
def processClusters : List String → List String → List String × List Event
  | [], acc => (acc, [])
  | line :: rest, acc =>
    if acc.contains line then processClusters rest acc
    else
      let (acc2, evs) := processClusters rest (acc ++ [line])
      (acc2, Event.cluster line :: evs)

/-- The product loop of `fetch_data`: parse the line, look up `'id'`
(raising `KeyError` — `str(e) = "'id'"` — if the split produced fewer than
two fields), skip silently when the id was already accumulated, else append
and yield an event.  The third component is the exception that aborted the
loop, if any. -/
def processProducts : List String → List (List (String × String)) →
    List (List (String × String)) × List Event × Option String
  | [], acc => (acc, [], none)
  | line :: rest, acc =>
    let d := parse_product_line line
    match lookupKey d "id" with
    | none => (acc, [], some "'id'")
    | some i =>
      if acc.any (fun p => lookupKey p "id" = some i) then
        processProducts rest acc
      else
        let (acc2, evs, e) := processProducts rest (acc ++ [d])
        (acc2, Event.product d :: evs, e)

/-- The association loop of `fetch_data`:
`cluster, product_ids = association.split(': ')` (a `ValueError` unless the
split yields exactly two parts), then dict assignment (last write wins) and
an event per line. -/
def processAssociations : List String → List (String × List String) →
    List (String × List String) × List Event × Option String
  | [], acc => (acc, [], none)
  | line :: rest, acc =>
    match splitColonSpace line.data with
    | [c, p] =>
      let cluster : String := ⟨c⟩
      let ids := (splitCh ',' p).map (fun l => (⟨l⟩ : String))
      let (acc2, evs, e) := processAssociations rest (dictInsert acc cluster ids)
      (acc2, Event.association cluster ids :: evs, e)
    | [_] => (acc, [], some "not enough values to unpack (expected 2, got 1)")
    | _ => (acc, [], some "too many values to unpack (expected 2)")

/-- Consumer `fetch_data` from src/app.py as the list of events it yields.
`newSearchOk` is the status test of the `POST /new_search` call; the three
transports feed the `clusters`, `products` and `associations` streams.  Any
exception — transport failure after retries, `KeyError` on a short product
line, `ValueError` on a malformed association line — is caught by the outer
`except`, which yields exactly one terminal error event and ends the
generator, so no later stream is consumed. -/
def fetch_data (newSearchOk : Bool)
    (tClusters tProducts tAssociations : Nat → List String × Option String) :
    List Event :=
  if newSearchOk = false then [Event.error "Failed to start a new search"]
  else
    let rC := fetch_stream tClusters
    let (clusters, evC) := processClusters rC.lines []
    match rC.err with
    | some e => evC ++ [Event.error e]
    | none =>
      let rP := fetch_stream tProducts
      let (products, evP, errP) := processProducts rP.lines []
      match errP with
      | some e => evC ++ evP ++ [Event.error e]
      | none =>
        match rP.err with
        | some e => evC ++ evP ++ [Event.error e]
        | none =>
          let rA := fetch_stream tAssociations
          let (assocs, evA, errA) := processAssociations rA.lines []
          match errA with
          | some e => evC ++ evP ++ evA ++ [Event.error e]
          | none =>
            match rA.err with
            | some e => evC ++ evP ++ evA ++ [Event.error e]
            | none =>
              evC ++ evP ++ evA ++ [Event.complete clusters products assocs]

/-- Function `get_review_stars` from src/app.py.  `floatConv` abstracts the composite
`int(round(float(s)))`: `none` models the `ValueError` raised by `float` on a
non-numeric string, which the function catches, logging a warning and
returning a placeholder. -/
def get_review_stars (floatConv : String → Option Nat) (review_score : String) :
    String :=
  if review_score = "None" then "No reviews yet"
  else
    match floatConv review_score with
    | some n => String.mk (List.replicate n (Char.ofNat 0x2B50))
    | none => "Invalid review score"

/-- The product record rendered as the Python dict the consumer accumulates:
the 7 keys of `productKeys` bound to the record's fields in order. -/
def recordDict (r : ProductRecord) : List (String × String) :=
  [("name", r.name), ("id", r.id), ("price", r.price),
   ("review_score", r.review_score), ("image_sign_kit", r.image_sign_kit),
   ("sport", r.sport), ("brand", r.brand)]

/-- Join `sep.join(fields)` at the character level: the separator-joined core of a
product line (proof-side view of the f-string concatenation). -/
def joinSep (sep : Char) : List (List Char) → List Char
  | [] => []
  | [f] => f
  | f :: fs => f ++ sep :: joinSep sep fs

/-! ### Concrete instances used by closed witnesses and counterexamples -/

/-- A 20-code catalog of pairwise distinct product codes. -/
def catW : List String :=
  ["c01", "c02", "c03", "c04", "c05", "c06", "c07", "c08", "c09", "c10",
   "c11", "c12", "c13", "c14", "c15", "c16", "c17", "c18", "c19", "c20"]

/-- The all-zero randomness oracle: `randint` draws hit the lower bound and
`random.sample` always picks the head of the remaining population. -/
def rand0 : Rand := ⟨0, fun _ => 0, fun _ => 0, fun _ => 0, fun _ _ => 0⟩

/-- The sample generated from `catW` under `rand0`. -/
def sampleW : SearchSample := (generate_sample catW rand0).getD ⟨[], [], []⟩

/-- An attribute map with no entries: every code is absent. -/
def graph0 : String → Option ProductInfo := fun _ => none

/-- An attribute map whose one entry has a `'|'` inside `product_name`. -/
def graphBad : String → Option ProductInfo := fun c =>
  if c = "P1" then
    some ⟨some "a|b", some "9", some "4.5", some "img123", some "Running",
      some "Quechua"⟩
  else none

/-- The record `graphBad` serves for code "P1": its name field contains the
field delimiter. -/
def rBad : ProductRecord :=
  { name := "a|b", id := "P1", price := "9", review_score := "4.5",
    image_sign_kit := "img123", sport := "Running", brand := "Quechua" }

/-- A well-behaved record: no field contains the delimiter or a newline, and
the line has no leading/trailing whitespace. -/
def rGood : ProductRecord :=
  { name := "Trek Shoes", id := "P2", price := "59.99", review_score := "4.5",
    image_sign_kit := "img9", sport := "Hiking", brand := "BTwin" }

/-- A transport whose every attempt succeeds with no lines. -/
def tOkEmpty : Nat → List String × Option String := fun _ => ([], none)

/-- A transport whose every attempt fails immediately. -/
def tFailW : Nat → List String × Option String :=
  fun _ => ([], some "Connection error")

/-- A transport that successfully delivers one association line that lacks
the `": "` separator. -/
def tAssocBadW : Nat → List String × Option String :=
  fun _ => (["nocolon\n"], none)

/-! ## Lemmas about the sampling core -/

theorem sampleGo_length (oracle : Nat → Nat) (k : Nat) :
    ∀ (step : Nat) (pop : List String), k ≤ pop.length →
      (sampleGo oracle k step pop).length = k := by
  induction k with
  | zero => intro step pop _; rfl
  | succ k ih =>
    intro step pop h
    have hpos : 0 < pop.length := Nat.lt_of_lt_of_le (Nat.succ_pos k) h
    have hi : oracle step % pop.length < pop.length := Nat.mod_lt _ hpos
    have hlen : (pop.eraseIdx (oracle step % pop.length)).length =
        pop.length - 1 := by
      rw [List.length_eraseIdx, if_pos hi]
    simp only [sampleGo, List.length_cons]
    rw [ih (step + 1) _ (by omega)]

theorem sampleGo_subset (oracle : Nat → Nat) (k : Nat) :
    ∀ (step : Nat) (pop : List String), k ≤ pop.length →
      ∀ x ∈ sampleGo oracle k step pop, x ∈ pop := by
  induction k with
  | zero =>
    intro step pop _ x hx
    simp only [sampleGo, List.not_mem_nil] at hx
  | succ k ih =>
    intro step pop h x hx
    have hpos : 0 < pop.length := Nat.lt_of_lt_of_le (Nat.succ_pos k) h
    have hi : oracle step % pop.length < pop.length := Nat.mod_lt _ hpos
    have hlen : (pop.eraseIdx (oracle step % pop.length)).length =
        pop.length - 1 := by
      rw [List.length_eraseIdx, if_pos hi]
    simp only [sampleGo, List.mem_cons] at hx
    rcases hx with rfl | hx
    · rw [List.getD_eq_getElem pop "" hi]
      exact List.getElem_mem hi
    · exact (List.eraseIdx_sublist pop _).mem
        (ih (step + 1) _ (by omega) x hx)

theorem getD_not_mem_eraseIdx :
    ∀ (l : List String) (i : Nat), l.Nodup → i < l.length →
      l.getD i "" ∉ l.eraseIdx i := by
  intro l
  induction l with
  | nil => intro i _ h; simp at h
  | cons a t ih =>
    intro i hnd hi
    have hnd' := List.nodup_cons.mp hnd
    cases i with
    | zero =>
      simpa using hnd'.1
    | succ i =>
      have hit : i < t.length := by simpa using hi
      intro hmem
      simp only [List.getD_cons_succ, List.eraseIdx_cons_succ,
        List.mem_cons] at hmem
      rcases hmem with heq | hmem
      · have hm : t.getD i "" ∈ t := by
          rw [List.getD_eq_getElem t "" hit]
          exact List.getElem_mem hit
        rw [heq] at hm
        exact hnd'.1 hm
      · exact ih i hnd'.2 hit hmem

theorem sampleGo_nodup (oracle : Nat → Nat) (k : Nat) :
    ∀ (step : Nat) (pop : List String), pop.Nodup → k ≤ pop.length →
      (sampleGo oracle k step pop).Nodup := by
  induction k with
  | zero => intro step pop _ _; exact List.nodup_nil
  | succ k ih =>
    intro step pop hnd h
    have hpos : 0 < pop.length := Nat.lt_of_lt_of_le (Nat.succ_pos k) h
    have hi : oracle step % pop.length < pop.length := Nat.mod_lt _ hpos
    have hlen : (pop.eraseIdx (oracle step % pop.length)).length =
        pop.length - 1 := by
      rw [List.length_eraseIdx, if_pos hi]
    simp only [sampleGo]
    refine List.nodup_cons.mpr ⟨?_, ?_⟩
    · intro hmem
      exact getD_not_mem_eraseIdx pop _ hnd hi
        (sampleGo_subset oracle k (step + 1) _ (by omega) _ hmem)
    · exact ih (step + 1) _ (hnd.sublist (List.eraseIdx_sublist pop _))
        (by omega)

theorem random_sample_some {pop : List String} {k : Nat} {oracle : Nat → Nat}
    {l : List String} (h : random_sample pop k oracle = some l) :
    k ≤ pop.length ∧ l.length = k ∧ (∀ x ∈ l, x ∈ pop) ∧
      (pop.Nodup → l.Nodup) := by
  unfold random_sample at h
  split at h
  · next hk =>
    cases h
    exact ⟨hk, sampleGo_length oracle k 0 pop hk,
      sampleGo_subset oracle k 0 pop hk,
      fun hnd => sampleGo_nodup oracle k 0 pop hnd hk⟩
  · cases h

theorem randint_le_right {a b : Nat} (r : Nat) (h : a ≤ b) :
    randint a b r ≤ b := by
  unfold randint
  have := Nat.mod_lt r (show 0 < b - a + 1 by omega)
  omega

theorem randint_ge_left (a b r : Nat) : a ≤ randint a b r :=
  Nat.le_add_right a _

theorem build_associations_spec (codes : List String) (r : Rand) :
    ∀ (clusters : List String) (j : Nat) (as : List (String × List String)),
      build_associations codes r j clusters = some as →
      as.map Prod.fst = clusters ∧
      ∀ c ps, (c, ps) ∈ as →
        (∀ p ∈ ps, p ∈ codes) ∧ min 3 codes.length ≤ ps.length ∧
          ps.length ≤ min 10 codes.length := by
  intro clusters
  induction clusters with
  | nil =>
    intro j as h
    simp only [build_associations, Option.some.injEq] at h
    subst h
    exact ⟨rfl, by intro c ps h; simp at h⟩
  | cons cluster rest ih =>
    intro j as h
    simp only [build_associations, Option.pure_def, Option.bind_eq_bind,
      Option.bind_eq_some, Option.some.injEq] at h
    obtain ⟨assoc, ha, tail, ht, rfl⟩ := h
    obtain ⟨htl, hmem⟩ := ih (j + 1) tail ht
    obtain ⟨hk, hlen, hsub, _⟩ := random_sample_some ha
    refine ⟨by simpa using htl, ?_⟩
    intro c ps hcp
    rcases List.mem_cons.mp hcp with heq | hcp
    · cases heq
      have h3 : 3 ≤ randint 3 10 (r.assocCount j) := randint_ge_left 3 10 _
      have h10 : randint 3 10 (r.assocCount j) ≤ 10 :=
        randint_le_right _ (by omega)
      refine ⟨hsub, ?_, ?_⟩ <;> omega
    · exact hmem c ps hcp

/-! ## Claims C1 and C2: the sample generator -/

/-- Claim C1: every sample returned by `generate_sample` (over a
duplicate-free catalog — the spec's ProductCode is a "unique key into the
catalog") satisfies: 20 ≤ number of product codes ≤ 50 with all codes
distinct, exactly 5 distinct clusters, exactly one association entry per
cluster and no others, every associated code a member of the sampled product
codes, and each association list of length between 3 and
min(10, number of product codes). -/
theorem C1_sample_invariants (product_codes : List String) (r : Rand)
    (s : SearchSample) (hnd : product_codes.Nodup)
    (h : generate_sample product_codes r = some s) :
    (20 ≤ s.product_codes.length ∧ s.product_codes.length ≤ 50 ∧
      s.product_codes.Nodup) ∧
    (s.clusters.length = 5 ∧ s.clusters.Nodup) ∧
    (s.associations.map Prod.fst = s.clusters) ∧
    (∀ c ps, (c, ps) ∈ s.associations →
      (∀ p ∈ ps, p ∈ s.product_codes) ∧ 3 ≤ ps.length ∧
        ps.length ≤ min 10 s.product_codes.length) := by
  simp only [generate_sample, Option.pure_def, Option.bind_eq_bind,
    Option.bind_eq_some, Option.some.injEq] at h
  obtain ⟨codes, hc, clusters, hcl, assocs, hb, rfl⟩ := h
  obtain ⟨-, hclen, -, hcnd⟩ := random_sample_some hc
  obtain ⟨-, hcllen, -, hclnd⟩ := random_sample_some hcl
  obtain ⟨hbfst, hbmem⟩ := build_associations_spec codes r clusters 0 assocs hb
  have h20 : 20 ≤ randint 20 50 r.nProducts := randint_ge_left 20 50 _
  have h50 : randint 20 50 r.nProducts ≤ 50 :=
    randint_le_right _ (by omega)
  have hcodes : 20 ≤ codes.length := by omega
  dsimp only
  refine ⟨⟨by omega, by omega, hcnd hnd⟩,
    ⟨hcllen, hclnd (by decide)⟩, hbfst, ?_⟩
  intro c ps hcp
  obtain ⟨hsub, hlo, hhi⟩ := hbmem c ps hcp
  exact ⟨hsub, by omega, hhi⟩

/-- Closed witness for C1 at the concrete catalog `catW` under `rand0`. -/
theorem C1_sample_invariants_witness :
    (20 ≤ sampleW.product_codes.length ∧ sampleW.product_codes.length ≤ 50 ∧
      sampleW.product_codes.Nodup) ∧
    (sampleW.clusters.length = 5 ∧ sampleW.clusters.Nodup) ∧
    (sampleW.associations.map Prod.fst = sampleW.clusters) ∧
    (∀ c ps, (c, ps) ∈ sampleW.associations →
      (∀ p ∈ ps, p ∈ sampleW.product_codes) ∧ 3 ≤ ps.length ∧
        ps.length ≤ min 10 sampleW.product_codes.length) :=
  C1_sample_invariants catW rand0 sampleW (by decide) (by decide)

/-- Claim C2: when the catalog holds fewer product codes than the drawn count
`n = randint 20 50`, `generate_sample` fails hard (the `ValueError` of
`random.sample`, modelled as `none`) instead of truncating or duplicating. -/
theorem C2_oversample_fails (product_codes : List String) (r : Rand)
    (h : product_codes.length < randint 20 50 r.nProducts) :
    generate_sample product_codes r = none := by
  simp only [generate_sample, Option.pure_def, Option.bind_eq_bind]
  rw [show random_sample product_codes (randint 20 50 r.nProducts)
      r.prodOracle = none by
    unfold random_sample
    rw [if_neg (by omega)]]
  rfl

/-- Closed witness for C2: the empty catalog is smaller than any drawn count,
so generation fails hard. -/
theorem C2_oversample_fails_witness :
    ([] : List String).length < randint 20 50 rand0.nProducts ∧
      generate_sample [] rand0 = none :=
  ⟨by decide, C2_oversample_fails [] rand0 (by decide)⟩

/-! ## Claims C3 and C5: the stream producers -/

/-- Claim C3: for every product code absent from the attribute map, both the
product stream line and the non-streaming product record show exactly the
sentinels: name `"Product <code>"`, price `"N/A"`, review score `"None"`,
image reference `""`, sport `"N/A"`, brand `"N/A"`. -/
theorem C3_sentinel_policy (graph : String → Option ProductInfo)
    (code : String) (h : graph code = none) :
    streamProductLine graph code =
      encodeProductRecord
        { name := "Product " ++ code, id := code, price := "N/A",
          review_score := "None", image_sign_kit := "", sport := "N/A",
          brand := "N/A" } ∧
    get_products_non_streaming graph [code] =
      [{ name := "Product " ++ code, id := code, price := "N/A",
         review_score := "None", image_sign_kit := "", sport := "N/A",
         brand := "N/A" }] := by
  constructor
  · simp [streamProductLine, encodeProductRecord, h, emptyInfo]
  · simp [get_products_non_streaming, h, emptyInfo]

/-- Closed witness for C3 at the empty attribute map and the code "X". -/
theorem C3_sentinel_policy_witness :
    streamProductLine graph0 "X" =
      encodeProductRecord
        { name := "Product " ++ "X", id := "X", price := "N/A",
          review_score := "None", image_sign_kit := "", sport := "N/A",
          brand := "N/A" } ∧
    get_products_non_streaming graph0 ["X"] =
      [{ name := "Product " ++ "X", id := "X", price := "N/A",
         review_score := "None", image_sign_kit := "", sport := "N/A",
         brand := "N/A" }] :=
  C3_sentinel_policy graph0 "X" rfl

/-- Claim C5: for every facet and every fixed stored sample, the streamed
endpoint is exactly the non-streaming endpoint's content pushed through the
line encoding: clusters line-per-label, products line-per-record in the same
order with the same field values, associations line-per-entry. -/
theorem C5_stream_nonstream_equiv (graph : String → Option ProductInfo)
    (s : SearchSample) :
    stream_cluster_names s.clusters =
      (get_clusters_non_streaming s).map (fun c => c ++ "\n") ∧
    stream_products graph s.product_codes =
      (get_products_non_streaming graph s.product_codes).map
        encodeProductRecord ∧
    stream_associations s.associations =
      (get_associations_non_streaming s).map
        (fun a => a.1 ++ ": " ++ commaJoin a.2 ++ "\n") := by
  refine ⟨rfl, ?_, rfl⟩
  simp only [stream_products, get_products_non_streaming, List.map_map]
  rfl

/-! ## Lemmas about Python strip and split -/

theorem dropWhile_of_head_false {p : Char → Bool} :
    ∀ {l : List Char}, (∀ c, l.head? = some c → p c = false) →
      l.dropWhile p = l := by
  intro l h
  cases l with
  | nil => rfl
  | cons a t =>
    rw [List.dropWhile_cons, h a rfl]
    simp

theorem stripChars_append_newline (l : List Char)
    (hhead : ∀ c, l.head? = some c → isPySpace c = false)
    (hlast : ∀ c, l.getLast? = some c → isPySpace c = false) :
    stripChars (l ++ ['\n']) = l := by
  cases l with
  | nil => decide
  | cons a t =>
    have ha : isPySpace a = false := hhead a rfl
    have h1 : ((a :: t) ++ ['\n']).dropWhile isPySpace = (a :: t) ++ ['\n'] := by
      rw [List.cons_append, List.dropWhile_cons, ha]
      simp
    have h2 : ((a :: t) ++ ['\n']).reverse = '\n' :: (a :: t).reverse := by
      simp
    have h3 : ('\n' :: (a :: t).reverse).dropWhile isPySpace =
        (a :: t).reverse.dropWhile isPySpace := by
      rw [List.dropWhile_cons, show isPySpace '\n' = true by decide]
      simp
    have h4 : (a :: t).reverse.dropWhile isPySpace = (a :: t).reverse :=
      dropWhile_of_head_false (by
        intro c hc
        rw [List.head?_reverse] at hc
        exact hlast c hc)
    unfold stripChars
    rw [h1, h2, h3, h4, List.reverse_reverse]

theorem splitCh_of_not_mem (sep : Char) :
    ∀ (l : List Char), sep ∉ l → splitCh sep l = [l] := by
  intro l
  induction l with
  | nil => intro _; rfl
  | cons c cs ih =>
    intro h
    have hc : ¬ c = sep := fun hh => h (hh ▸ List.mem_cons_self c cs)
    simp only [splitCh, if_neg hc]
    rw [ih (fun hm => h (List.mem_cons_of_mem c hm))]

theorem splitCh_append (sep : Char) (ys : List Char) :
    ∀ (xs : List Char), sep ∉ xs →
      splitCh sep (xs ++ sep :: ys) = xs :: splitCh sep ys := by
  intro xs
  induction xs with
  | nil => intro _; simp [splitCh]
  | cons c cs ih =>
    intro h
    have hc : ¬ c = sep := fun hh => h (hh ▸ List.mem_cons_self c cs)
    simp only [List.cons_append, splitCh, if_neg hc, List.append_eq]
    rw [ih (fun hm => h (List.mem_cons_of_mem c hm))]

theorem splitCh_joinSep (sep : Char) :
    ∀ (fs : List (List Char)), fs ≠ [] → (∀ f ∈ fs, sep ∉ f) →
      splitCh sep (joinSep sep fs) = fs := by
  intro fs
  induction fs with
  | nil => intro h _; exact absurd rfl h
  | cons f fs ih =>
    intro _ hmem
    cases fs with
    | nil =>
      exact splitCh_of_not_mem sep f (hmem f (List.mem_cons_self f []))
    | cons g gs =>
      show splitCh sep (f ++ sep :: joinSep sep (g :: gs)) = f :: g :: gs
      rw [splitCh_append sep _ f (hmem f (List.mem_cons_self f _))]
      rw [ih (by simp) (fun x hx => hmem x (List.mem_cons_of_mem f hx))]

theorem getLast?_cons_append_cons (x : Char) (m : List Char) (y : Char)
    (R : List Char) :
    (x :: (m ++ y :: R)).getLast? = (y :: R).getLast? := by
  rw [← List.cons_append]
  exact List.getLast?_append_cons (x :: m) y R

/-! ## Claim C4: the product-line round trip -/

/-- Counterexample to claim C4 as stated: the catalog entry of `graphBad` has
a `'|'` inside its product name, so the stream line has 8 `'|'`-separated
parts and the consumer's `split('|')`-and-zip parse shifts every later field,
failing to reproduce the served record `rBad` (which
`get_products_non_streaming` confirms is the record the producer serves). -/
theorem C4_roundtrip_counterexample :
    get_products_non_streaming graphBad ["P1"] = [rBad] ∧
    parse_product_line (pythonStrip (streamProductLine graphBad "P1")) ≠
      recordDict rBad := by
  constructor
  · decide
  · decide

/-- Claim C4 (amended): the round trip holds for every served record whose
7 fields are delimiter-clean — no field contains `'|'` or a newline, the name
does not start with Python whitespace and the brand does not end with it
(otherwise the consumer's `split('|')` mis-fields the record, or its
`.strip()` eats the edge whitespace).  Under these conditions, parsing the
serialized line reproduces the original 7-field record exactly. -/
theorem C4_roundtrip_amended (r : ProductRecord)
    (hfields : ∀ f ∈ [r.name, r.id, r.price, r.review_score,
      r.image_sign_kit, r.sport, r.brand], '|' ∉ f.data ∧ '\n' ∉ f.data)
    (hlead : r.name.data.head?.all (fun c => !isPySpace c) = true)
    (htrail : r.brand.data.getLast?.all (fun c => !isPySpace c) = true) :
    parse_product_line (pythonStrip (encodeProductRecord r)) = recordDict r := by
  have hp : ("|" : String).data = ['|'] := rfl
  have hnl : ("\n" : String).data = ['\n'] := rfl
  have hdata : (encodeProductRecord r).data =
      joinSep '|' [r.name.data, r.id.data, r.price.data, r.review_score.data,
        r.image_sign_kit.data, r.sport.data, r.brand.data] ++ ['\n'] := by
    simp [encodeProductRecord, String.data_append, hp, hnl, joinSep,
      List.append_assoc]
  have hjoin : joinSep '|' [r.name.data, r.id.data, r.price.data,
      r.review_score.data, r.image_sign_kit.data, r.sport.data,
      r.brand.data] =
      r.name.data ++ '|' :: (r.id.data ++ '|' :: (r.price.data ++ '|' ::
        (r.review_score.data ++ '|' :: (r.image_sign_kit.data ++ '|' ::
          (r.sport.data ++ '|' :: r.brand.data))))) := rfl
  have hcorehead : ∀ c, (joinSep '|' [r.name.data, r.id.data, r.price.data,
      r.review_score.data, r.image_sign_kit.data, r.sport.data,
      r.brand.data]).head? = some c → isPySpace c = false := by
    intro c hc
    rw [hjoin] at hc
    cases hname : r.name.data with
    | nil =>
      rw [hname, List.nil_append] at hc
      cases hc
      decide
    | cons a t =>
      rw [hname, List.cons_append] at hc
      cases hc
      rw [hname] at hlead
      simpa using hlead
  have hcorelast : ∀ c, (joinSep '|' [r.name.data, r.id.data, r.price.data,
      r.review_score.data, r.image_sign_kit.data, r.sport.data,
      r.brand.data]).getLast? = some c → isPySpace c = false := by
    intro c hc
    rw [hjoin, List.getLast?_append_cons, getLast?_cons_append_cons,
      getLast?_cons_append_cons, getLast?_cons_append_cons,
      getLast?_cons_append_cons, getLast?_cons_append_cons] at hc
    cases hbrand : r.brand.data with
    | nil =>
      rw [hbrand] at hc
      cases hc
      decide
    | cons x xs =>
      rw [hbrand, show ('|' :: x :: xs).getLast? = (x :: xs).getLast? from
        List.getLast?_append_cons ['|'] x xs] at hc
      rw [hbrand] at htrail
      rw [hc] at htrail
      simpa using htrail
  have hstrip : pythonStrip (encodeProductRecord r) =
      ⟨joinSep '|' [r.name.data, r.id.data, r.price.data, r.review_score.data,
        r.image_sign_kit.data, r.sport.data, r.brand.data]⟩ := by
    unfold pythonStrip
    rw [show stripChars (encodeProductRecord r).data =
        joinSep '|' [r.name.data, r.id.data, r.price.data,
          r.review_score.data, r.image_sign_kit.data, r.sport.data,
          r.brand.data] from by
      rw [hdata]
      exact stripChars_append_newline _ hcorehead hcorelast]
  have hnopipe : ∀ f ∈ [r.name.data, r.id.data, r.price.data,
      r.review_score.data, r.image_sign_kit.data, r.sport.data,
      r.brand.data], '|' ∉ f := by
    intro f hf
    simp only [List.mem_cons, List.not_mem_nil, or_false] at hf
    rcases hf with rfl | rfl | rfl | rfl | rfl | rfl | rfl
    · exact (hfields r.name (by simp)).1
    · exact (hfields r.id (by simp)).1
    · exact (hfields r.price (by simp)).1
    · exact (hfields r.review_score (by simp)).1
    · exact (hfields r.image_sign_kit (by simp)).1
    · exact (hfields r.sport (by simp)).1
    · exact (hfields r.brand (by simp)).1
  rw [hstrip]
  unfold parse_product_line
  rw [show (⟨joinSep '|' [r.name.data, r.id.data, r.price.data,
      r.review_score.data, r.image_sign_kit.data, r.sport.data,
      r.brand.data]⟩ : String).data =
      joinSep '|' [r.name.data, r.id.data, r.price.data, r.review_score.data,
        r.image_sign_kit.data, r.sport.data, r.brand.data] from rfl]
  rw [splitCh_joinSep '|' _ (by simp) hnopipe]
  rfl

/-- Closed witness for the amended C4 at the delimiter-clean record
`rGood`. -/
theorem C4_roundtrip_amended_witness :
    parse_product_line (pythonStrip (encodeProductRecord rGood)) =
      recordDict rGood :=
  C4_roundtrip_amended rGood (by decide) (by decide) (by decide)

/-! ## Claim C6: retry policy of the stream consumer -/

/-- Claim C6: when a stream request fails at the transport level on every
attempt, the consumer makes exactly 3 attempts with one backoff sleep of 1
time unit between consecutive attempts (2 sleeps), then surfaces exactly one
terminal error event carrying the failure description, and consumes no
further stream of that request (the result does not depend on the product or
association transports, and carries no event from them). -/
theorem C6_retry_policy (msg : String)
    (tFail : Nat → List String × Option String)
    (hfail : ∀ a, tFail a = ([], some msg))
    (tOther tOther2 : Nat → List String × Option String) :
    fetch_stream tFail =
      { lines := [], err := some msg, attempts := 3, sleeps := 2 } ∧
    fetch_data true tFail tOther tOther2 = [Event.error msg] ∧
    ((fetch_stream tOther).err = none →
      fetch_data true tOther tFail tOther2 =
        (processClusters (fetch_stream tOther).lines []).2 ++
          [Event.error msg]) := by
  have h : fetch_stream tFail =
      { lines := [], err := some msg, attempts := 3, sleeps := 2 } := by
    simp [fetch_stream, fetch_stream_go, hfail]
  refine ⟨h, ?_, ?_⟩
  · unfold fetch_data
    rw [if_neg (by simp)]
    rw [h]
    rfl
  · intro hOk
    cases hpc : processClusters (fetch_stream tOther).lines [] with
    | mk cs evC =>
      simp only [fetch_data, hpc, hOk, h]
      simp [processProducts]

/-- Closed witness for C6 at the always-failing transport `tFailW`, both as
the first stream of the request and as the second stream after a successful
(empty) cluster stream. -/
theorem C6_retry_policy_witness :
    fetch_stream tFailW =
      { lines := [], err := some "Connection error", attempts := 3,
        sleeps := 2 } ∧
    fetch_data true tFailW tOkEmpty tOkEmpty =
      [Event.error "Connection error"] ∧
    ((fetch_stream tOkEmpty).err = none →
      fetch_data true tOkEmpty tFailW tOkEmpty =
        (processClusters (fetch_stream tOkEmpty).lines []).2 ++
          [Event.error "Connection error"]) :=
  C6_retry_policy "Connection error" tFailW (fun _ => rfl) tOkEmpty tOkEmpty

/-! ## Claim C7: malformed lines -/

/-- Counterexample to claim C7 as stated: a run whose association stream
delivers a single line `"nocolon"` (no `": "` separator) does not degrade to
a placeholder and continue — the `ValueError` of the two-target unpacking
aborts the whole consumption, yielding a single terminal error event and no
association or complete event. -/
theorem C7_malformed_counterexample :
    fetch_data true tOkEmpty tOkEmpty tAssocBadW =
      [Event.error "not enough values to unpack (expected 2, got 1)"] := by
  decide

/-- Claim C7 (amended): the malformed-input tolerance is per-failure-kind.
A non-numeric review score degrades to the placeholder
`"Invalid review score"` and consumption continues, but an association line
without `": "` aborts the whole consumption with a `ValueError`, and a
product line with no `'|'` at all aborts it with a `KeyError` on `'id'`;
in both cases the remaining lines are dropped and only the terminal error
remains. -/
theorem C7_malformed_amended (score : String)
    (floatConv : String → Option Nat) (hscore : floatConv score = none)
    (hnotnone : score ≠ "None")
    (aline : String) (arest : List String)
    (aacc : List (String × List String))
    (ha : (splitColonSpace aline.data).length = 1)
    (pline : String) (prest : List String)
    (pacc : List (List (String × String)))
    (hpid : lookupKey (parse_product_line pline) "id" = none) :
    get_review_stars floatConv score = "Invalid review score" ∧
    processAssociations (aline :: arest) aacc =
      (aacc, [], some "not enough values to unpack (expected 2, got 1)") ∧
    processProducts (pline :: prest) pacc = (pacc, [], some "'id'") ∧
    (∀ pline2 i2, lookupKey (parse_product_line pline2) "id" = some i2 →
      processProducts [pline2] [] =
        ([parse_product_line pline2],
          [Event.product (parse_product_line pline2)], none)) := by
  refine ⟨?_, ?_, ?_, ?_⟩
  · unfold get_review_stars
    rw [if_neg hnotnone, hscore]
  · unfold processAssociations
    cases hsp : splitColonSpace aline.data with
    | nil => rw [hsp] at ha; simp at ha
    | cons x t =>
      cases t with
      | nil => rfl
      | cons y u => rw [hsp] at ha; simp at ha
  · simp only [processProducts, hpid]
  · intro pline2 i2 hid2
    simp [processProducts, hid2]

/-- Closed witness for the amended C7: "abc" is non-numeric, "nocolon" lacks
the association separator, "noid" has no `'|'` so its parsed dict lacks
the `'id'` key, while the 2-field line "OnlyName|ID9" is accepted as a
partial record without aborting. -/
theorem C7_malformed_amended_witness :
    (get_review_stars (fun _ => none) "abc" = "Invalid review score" ∧
      processAssociations ["nocolon", "Hiking: c01,c02"] [] =
        ([], [], some "not enough values to unpack (expected 2, got 1)") ∧
      processProducts ["noid", "Name|ID1|9|4.5|img|Run|BR"] [] =
        ([], [], some "'id'") ∧
      (∀ pline2 i2, lookupKey (parse_product_line pline2) "id" = some i2 →
        processProducts [pline2] [] =
          ([parse_product_line pline2],
            [Event.product (parse_product_line pline2)], none))) ∧
    processProducts ["OnlyName|ID9"] [] =
      ([parse_product_line "OnlyName|ID9"],
        [Event.product (parse_product_line "OnlyName|ID9")], none) :=
  have h := C7_malformed_amended "abc" (fun _ => none) rfl (by decide)
    "nocolon" ["Hiking: c01,c02"] [] (by decide)
    "noid" ["Name|ID1|9|4.5|img|Run|BR"] [] (by decide)
  ⟨h, h.2.2.2 "OnlyName|ID9" "ID9" (by decide)⟩

/-! ## Claims C8 and C10: consumer deduplication -/

/-- Claim C8: the consumer deduplicates by identity key — two identical
product lines accumulate exactly as one (same snapshot, same events), two
identical cluster lines likewise, and two association lines for the same
cluster label resolve last-write-wins in the accumulated associations. -/
theorem C8_consumer_dedup (pl : String) (i : String)
    (hid : lookupKey (parse_product_line pl) "id" = some i)
    (cl : String) (al1 al2 : String) (c p1 p2 : List Char)
    (h1 : splitColonSpace al1.data = [c, p1])
    (h2 : splitColonSpace al2.data = [c, p2]) :
    processProducts [pl, pl] [] = processProducts [pl] [] ∧
    processClusters [cl, cl] [] = processClusters [cl] [] ∧
    (processAssociations [al1, al2] []).1 =
      [(⟨c⟩, (splitCh ',' p2).map (fun l => (⟨l⟩ : String)))] := by
  refine ⟨?_, ?_, ?_⟩
  · simp [processProducts, hid]
  · simp [processClusters]
  · simp [processAssociations, h1, h2, dictInsert]

/-- Closed witness for C8 at concrete product, cluster and association
lines. -/
theorem C8_consumer_dedup_witness :
    processProducts ["Name|ID1|9|4.5|img|Run|BR", "Name|ID1|9|4.5|img|Run|BR"]
        [] =
      processProducts ["Name|ID1|9|4.5|img|Run|BR"] [] ∧
    processClusters ["Hiking", "Hiking"] [] = processClusters ["Hiking"] [] ∧
    (processAssociations ["Hiking: c01,c02", "Hiking: c03"] []).1 =
      [("Hiking", ["c03"])] :=
  C8_consumer_dedup "Name|ID1|9|4.5|img|Run|BR" "ID1" (by decide) "Hiking"
    "Hiking: c01,c02" "Hiking: c03" "Hiking".data "c01,c02".data "c03".data
    (by decide) (by decide)

/-- Claim C10 (implicit): product dedup is first-write-wins — two product
lines with the same id leave the record parsed from the first line in the
snapshot, and no event is emitted for the later line (exactly one product
event total). -/
theorem C10_product_first_write_wins (l1 l2 : String) (i : String)
    (h1 : lookupKey (parse_product_line l1) "id" = some i)
    (h2 : lookupKey (parse_product_line l2) "id" = some i) :
    processProducts [l1, l2] [] =
      ([parse_product_line l1], [Event.product (parse_product_line l1)],
        none) := by
  simp [processProducts, h1, h2]

/-- Closed witness for C10: two lines with id "ID1" but different names; the
first line's record is kept and the second produces no event. -/
theorem C10_product_first_write_wins_witness :
    processProducts ["First|ID1|9|4.5|img|Run|BR", "Second|ID1|8|3.0|pic|Swim|QU"]
        [] =
      ([parse_product_line "First|ID1|9|4.5|img|Run|BR"],
        [Event.product (parse_product_line "First|ID1|9|4.5|img|Run|BR")],
        none) :=
  C10_product_first_write_wins "First|ID1|9|4.5|img|Run|BR"
    "Second|ID1|8|3.0|pic|Swim|QU" "ID1" (by decide) (by decide)

/-! ## Claim C9: empty-catalog degradation -/

/-- Counterexample to claim C9 as stated: after a catalog load failure the
catalog degrades to the empty list, but sample generation on the empty
catalog does NOT yield a degenerate zero-item sample — it fails hard
(`random.sample` raises because the drawn count, at least 20, exceeds the
population size 0). -/
theorem C9_empty_catalog_counterexample :
    load_product_codes (Except.error "missing product_codes.csv") = [] ∧
    generate_sample
      (load_product_codes (Except.error "missing product_codes.csv")) rand0 =
      none := by
  constructor
  · rfl
  · decide

/-- Claim C9 (amended): the loader half of the claim holds — any load failure
degrades to the empty catalog instead of failing the load step — but callers
do not tolerate it: `generate_sample` on the empty catalog errors for every
randomness draw (the drawn count is at least 20), so startup generation
fails rather than storing a zero-item sample. -/
theorem C9_empty_catalog_amended (e : String) (r : Rand) :
    load_product_codes (Except.error e) = [] ∧
    generate_sample (load_product_codes (Except.error e)) r = none := by
  refine ⟨rfl, ?_⟩
  show generate_sample [] r = none
  have h20 : 20 ≤ randint 20 50 r.nProducts := randint_ge_left 20 50 _
  simp only [generate_sample, Option.pure_def, Option.bind_eq_bind]
  rw [show random_sample [] (randint 20 50 r.nProducts) r.prodOracle =
      none from by
    unfold random_sample
    rw [if_neg (by simp; omega)]]
  rfl

end StreamlitSearch
